import Mathlib

/-!
Shallow embedding of the youth-group FastAPI service
(src/youthGroupFastAPI.py) for the claims under verification.

The relational store (MySQL) is modelled as lists of rows, the ephemeral
store (Redis) as a pair of association lists (a set of (eventId, personId)
pairs and a timestamp hash keyed by (eventId, personId)), and the document
store (MongoDB) as a list of event notes.  HTTP failures are modelled as
`Except Nat` values carrying the status code delivered to the client.
Store availability failures (Redis / MongoDB down) are modelled by the
boolean parameters `redisFail` / `mongoFail`, mirroring the try/except
blocks of the source.  Python truthiness of optional integer and string
fields is modelled by `truthyN` / `truthyS`.
-/

namespace YouthGroup

/-- Python truthiness of an optional integer: `None` and `0` are falsy. -/
def truthyN : Option Nat → Bool
  | none => false
  | some n => n != 0

/-- Python truthiness of an optional string: `None` and the empty string are falsy. -/
def truthyS : Option String → Bool
  | none => false
  | some s => s != ""

/-- A row of the Person table. -/
structure Person where
  id : Nat
  firstName : String
  lastName : String
deriving DecidableEq

/-- A row of the Event table. -/
structure Event where
  id : Nat
  name : String
  type : String
  dateTime : String
  location : String
  eventNotes : String
deriving DecidableEq

/-- A row of the Registration table.  The role foreign keys are nullable. -/
structure Registration where
  id : Nat
  eventId : Nat
  attendeeId : Option Nat
  leaderId : Option Nat
  volunteerId : Option Nat
  emergencyContact : String
deriving DecidableEq

/-- A row of the AttendanceRecord table (durable check-in history). -/
structure AttendanceRecord where
  personId : Nat
  eventId : Nat
deriving DecidableEq

/-- A row of the SmallGroup table. -/
structure SmallGroup where
  id : Nat
  name : String
deriving DecidableEq

/-- The relational (MySQL) store. -/
structure DB where
  events : List Event
  persons : List Person
  registrations : List Registration
  attendance : List AttendanceRecord
  smallGroups : List SmallGroup
deriving DecidableEq

/-- A document of the MongoDB eventNotes collection. -/
structure EventNote where
  eventId : Nat
  content : String
deriving DecidableEq

/-- The ephemeral (Redis) store: `checkedIn` holds the members of the
per-event checked-in SETs as (eventKey, member) pairs, `checkInTimes` the
per-event timestamp HASHes as (eventKey, field, value) triples. -/
structure RedisState where
  checkedIn : List (Nat × Nat)
  checkInTimes : List (Nat × Nat × String)
deriving DecidableEq

/-- Redis SMEMBERS on the key `event:e:checkedIn` (a set: distinct members). -/
def RedisState.smembers (r : RedisState) (e : Nat) : List Nat :=
  ((r.checkedIn.filter (fun pr => pr.1 == e)).map (fun pr => pr.2)).dedup

/-- Redis SADD on the key `event:e:checkedIn`: adding an existing member is a no-op. -/
def RedisState.sadd (r : RedisState) (e p : Nat) : RedisState :=
  if (e, p) ∈ r.checkedIn then r
  else { r with checkedIn := (e, p) :: r.checkedIn }

/-- The count returned by Redis SREM: 1 if the member was present, else 0. -/
def RedisState.sremCount (r : RedisState) (e p : Nat) : Nat :=
  if (e, p) ∈ r.checkedIn then 1 else 0

/-- Redis SREM on the key `event:e:checkedIn` (state effect). -/
def RedisState.srem (r : RedisState) (e p : Nat) : RedisState :=
  { r with checkedIn := r.checkedIn.filter (fun pr => pr ≠ (e, p)) }

/-- Redis HSET on the key `event:e:checkInTimes`: overwrites the field. -/
def RedisState.hset (r : RedisState) (e p : Nat) (v : String) : RedisState :=
  { r with checkInTimes :=
      (e, p, v) :: r.checkInTimes.filter (fun t => !(t.1 == e && t.2.1 == p)) }

/-- Redis HDEL on the key `event:e:checkInTimes`. -/
def RedisState.hdel (r : RedisState) (e p : Nat) : RedisState :=
  { r with checkInTimes := r.checkInTimes.filter (fun t => !(t.1 == e && t.2.1 == p)) }

/-- Redis HGET on the key `event:e:checkInTimes`. -/
def RedisState.hget (r : RedisState) (e p : Nat) : Option String :=
  (r.checkInTimes.find? (fun t => t.1 == e && t.2.1 == p)).map (fun t => t.2.2)

/-- Redis HGETALL on the key `event:e:checkInTimes`. -/
def RedisState.hgetall (r : RedisState) (e : Nat) : List (Nat × String) :=
  (r.checkInTimes.filter (fun t => t.1 == e)).map (fun t => (t.2.1, t.2.2))

/-- Python `timestamps.get(id)` on the fetched HGETALL dictionary. -/
def lookupTime (ts : List (Nat × String)) (pid : Nat) : Option String :=
  (ts.find? (fun t => t.1 == pid)).map (fun t => t.2)

/-- One entry of the checked-in student lists assembled by the endpoints. -/
structure CheckedInStudent where
  personId : Nat
  firstName : String
  lastName : String
  checkInTime : Option String
deriving DecidableEq

/-- The `check_in_data` dictionary built inside the comprehensive summary. -/
structure CheckInData where
  checkedInCount : Nat
  checkedInStudents : List CheckedInStudent
  checkInTimes : List (Nat × String)
deriving DecidableEq

/-- The `registrations` section of the comprehensive summary response. -/
structure RegistrationsPart where
  total : Nat
  attendees : Nat
  leaders : Nat
  volunteers : Nat
  rows : List Registration
deriving DecidableEq

/-- The `liveCheckIns` section of the comprehensive summary response. -/
structure LiveCheckInsPart where
  count : Nat
  students : List CheckedInStudent
deriving DecidableEq

/-- The `notes` section of the comprehensive summary response. -/
structure NotesPart where
  count : Nat
  rows : List EventNote
deriving DecidableEq

/-- The `summary` section of the comprehensive summary response. -/
structure SummaryStats where
  totalRegistered : Nat
  totalCheckedIn : Nat
  attendanceRate : ℚ
  notesCount : Nat
deriving DecidableEq

/-- The full comprehensive summary response body. -/
structure SummaryResult where
  event : Event
  registrations : RegistrationsPart
  liveCheckIns : LiveCheckInsPart
  notes : NotesPart
  summary : SummaryStats
deriving DecidableEq

/-- Whether the ephemeral (Redis) and document (MongoDB) stores were
reached during a call to the comprehensive summary endpoint. -/
structure StoreCalls where
  ephemeralReached : Bool
  documentReached : Bool
deriving DecidableEq

/-- Python `round(x, 2)`, modelled on exact rationals. -/
def round2 (q : ℚ) : ℚ := (round (q * 100) : ℤ) / 100

/-- The registrations fetched for an event (`WHERE R.EventID = event_id`). -/
def eventRegistrations (db : DB) (event_id : Nat) : List Registration :=
  db.registrations.filter (fun rg => rg.eventId == event_id)

/-- The `check_in_data` dictionary of the comprehensive summary: defaults
to zero when Redis is unavailable or the event's checked-in set is empty;
otherwise the checked-in ids are joined against the Person table and only
ids with a matching Person row are kept. -/
def checkInData (db : DB) (r : RedisState) (redisFail : Bool) (event_id : Nat) : CheckInData :=
  if redisFail then ⟨0, [], []⟩
  else
    let student_ids := r.smembers event_id
    if student_ids.isEmpty then ⟨0, [], []⟩
    else
      let timestamps := r.hgetall event_id
      let checked_in_people := db.persons.filter (fun p => decide (p.id ∈ student_ids))
      ⟨checked_in_people.length,
       checked_in_people.map (fun p => ⟨p.id, p.firstName, p.lastName, lookupTime timestamps p.id⟩),
       timestamps⟩

/-- The `event_notes` list of the comprehensive summary: empty when the
document store fails, otherwise the notes filed under the event id. -/
def eventNotesFetched (mongoNotes : List EventNote) (mongoFail : Bool) (event_id : Nat) :
    List EventNote :=
  if mongoFail then [] else mongoNotes.filter (fun n => n.eventId == event_id)

/-- The response body assembled by `get_comprehensive_event_summary` once
the event row has been found. -/
def buildSummary (db : DB) (mongoNotes : List EventNote) (r : RedisState)
    (redisFail mongoFail : Bool) (event_id : Nat) (event : Event) : SummaryResult :=
  { event := event,
    registrations :=
      ⟨(eventRegistrations db event_id).length,
       ((eventRegistrations db event_id).filter (fun rg => truthyN rg.attendeeId)).length,
       ((eventRegistrations db event_id).filter (fun rg => truthyN rg.leaderId)).length,
       ((eventRegistrations db event_id).filter (fun rg => truthyN rg.volunteerId)).length,
       eventRegistrations db event_id⟩,
    liveCheckIns :=
      ⟨(checkInData db r redisFail event_id).checkedInCount,
       (checkInData db r redisFail event_id).checkedInStudents⟩,
    notes :=
      ⟨(eventNotesFetched mongoNotes mongoFail event_id).length,
       eventNotesFetched mongoNotes mongoFail event_id⟩,
    summary :=
      ⟨(eventRegistrations db event_id).length,
       (checkInData db r redisFail event_id).checkedInCount,
       round2 (if (eventRegistrations db event_id).isEmpty then 0
               else ((checkInData db r redisFail event_id).checkedInCount : ℚ) /
                 ((eventRegistrations db event_id).length : ℚ) * 100),
       (eventNotesFetched mongoNotes mongoFail event_id).length⟩ }

/-- GET /events/\x7bevent_id\x7d/comprehensive.  When the event row is
absent, the handler raises HTTPException(404) inside its own `try` block;
that exception is then caught by the function's blanket
`except Exception` clause and re-raised as HTTPException(500), so the
client receives status 500 — and neither the ephemeral nor the document
store is reached.  When the event exists, both stores are reached and the
assembled summary is returned. -/
def get_comprehensive_event_summary (db : DB) (mongoNotes : List EventNote)
    (r : RedisState) (redisFail mongoFail : Bool) (event_id : Nat) :
    Except Nat SummaryResult × StoreCalls :=
  match db.events.find? (fun e => e.id == event_id) with
  | none => (Except.error 500, ⟨false, false⟩)
  | some event =>
      (Except.ok (buildSummary db mongoNotes r redisFail mongoFail event_id event),
       ⟨true, true⟩)

/-- The response body of the live check-ins endpoint. -/
structure LiveCheckInSummary where
  eventId : Nat
  count : Nat
  students : List CheckedInStudent
deriving DecidableEq

/-- GET /event/\x7beventId\x7d/live-checkins: raises 404 when the event's
checked-in set is empty; otherwise joins the checked-in ids against the
Person table and returns the matching students with their timestamps. -/
def get_live_checkins (db : DB) (r : RedisState) (eventId : Nat) :
    Except Nat LiveCheckInSummary :=
  let student_ids := r.smembers eventId
  if student_ids.isEmpty then Except.error 404
  else
    let timestamps := r.hgetall eventId
    let people := db.persons.filter (fun p => decide (p.id ∈ student_ids))
    Except.ok ⟨eventId, people.length,
      people.map (fun p => ⟨p.id, p.firstName, p.lastName, lookupTime timestamps p.id⟩)⟩

/-- The relational effect of a check-in: an AttendanceRecord row is inserted. -/
def checkinDB (db : DB) (eventId personId : Nat) : DB :=
  { db with attendance := db.attendance ++ [⟨personId, eventId⟩] }

/-- The ephemeral effect of a check-in: SADD to the set, HSET of the timestamp. -/
def checkinRedis (r : RedisState) (eventId personId : Nat) (now : String) : RedisState :=
  (r.sadd eventId personId).hset eventId personId now

/-- POST /event/\x7beventId\x7d/checkin/\x7bpersonId\x7d: verifies the
person exists, inserts a durable AttendanceRecord row, then updates the
ephemeral set and timestamp hash. -/
def checkin_person (db : DB) (r : RedisState) (eventId personId : Nat) (now : String) :
    Except Nat (DB × RedisState) :=
  if db.persons.any (fun p => p.id == personId) then
    Except.ok (checkinDB db eventId personId, checkinRedis r eventId personId now)
  else Except.error 404

/-- DELETE /event/\x7beventId\x7d/checkin/\x7bpersonId\x7d: records the
SREM count, removes the member from the set and the field from the
timestamp hash, and only then raises 404 when the count was zero.  The
mutated ephemeral state is returned alongside the status. -/
def checkout_person (r : RedisState) (eventId personId : Nat) :
    Except Nat Unit × RedisState :=
  let removed := r.sremCount eventId personId
  let r2 := (r.srem eventId personId).hdel eventId personId
  (if removed = 0 then Except.error 404 else Except.ok (), r2)

/-- The request body of POST /events/\x7bevent_id\x7d/registrations. -/
structure RegBody where
  attendeeID : Option Nat
  leaderID : Option Nat
  volunteerID : Option Nat
  emergencyContact : Option String
deriving DecidableEq

/-- The manually computed next Registration id: IFNULL(MAX(ID), 0) + 1. -/
def nextRegistrationId (db : DB) : Nat :=
  (db.registrations.map (fun rg => rg.id)).foldr max 0 + 1

/-- POST /events/\x7bevent_id\x7d/registrations: rejects with 400 when no
role id is truthy or the emergency contact is missing, otherwise inserts a
row with the manually computed next id.  The VolunteerID column is only
written when volunteerID is truthy (the fallback insert omits it). -/
def register_for_event (db : DB) (event_id : Nat) (body : RegBody) :
    Except Nat (DB × Nat) :=
  if !(truthyN body.attendeeID || truthyN body.leaderID || truthyN body.volunteerID) then
    Except.error 400
  else if !(truthyS body.emergencyContact) then
    Except.error 400
  else
    let row : Registration :=
      ⟨nextRegistrationId db, event_id, body.attendeeID, body.leaderID,
       if truthyN body.volunteerID then body.volunteerID else none,
       body.emergencyContact.getD ""⟩
    Except.ok ({ db with registrations := db.registrations ++ [row] }, nextRegistrationId db)

/-- The manually computed next SmallGroup id: IFNULL(MAX(ID), 0) + 1. -/
def nextGroupId (db : DB) : Nat :=
  (db.smallGroups.map (fun g => g.id)).foldr max 0 + 1

/-- POST /smallgroups: rejects with 400 when the name is missing or empty,
otherwise inserts a row with the manually computed next id and the
stripped name. -/
def create_small_group (db : DB) (name : Option String) : Except Nat (DB × Nat) :=
  if !(truthyS name) then Except.error 400
  else
    Except.ok
      ({ db with smallGroups := db.smallGroups ++ [⟨nextGroupId db, (name.getD "").trim⟩] },
       nextGroupId db)

/-- A sample person row used for concrete evaluations. -/
def samplePerson : Person := ⟨5, "Ann", "Lee"⟩

/-- A sample event row used for concrete evaluations. -/
def sampleEvent : Event := ⟨1, "Retreat", "social", "2024-01-01", "Hall", ""⟩

/-- A sample relational store: one event (id 1), one person (id 5). -/
def sampleDB : DB := ⟨[sampleEvent], [samplePerson], [], [], []⟩

/-- A sample ephemeral store: person 5 checked in to event 1 at "t1". -/
def sampleRedis : RedisState := ⟨[(1, 5)], [(1, 5, "t1")]⟩

/-- An empty relational store. -/
def dbEmpty : DB := ⟨[], [], [], [], []⟩

/-- An empty ephemeral store. -/
def redisEmpty : RedisState := ⟨[], []⟩

/-- A registration request naming two roles (attendee 1 and leader 2) at once. -/
def bodyTwoRoles : RegBody := ⟨some 1, some 2, none, some "555"⟩

/-- A registration request with no truthy role id (volunteerID 0 is falsy). -/
def bodyNoRoles : RegBody := ⟨none, none, some 0, some "911"⟩

/-- An ephemeral store with a check-in for event 1 only. -/
def redisStale : RedisState := ⟨[(1, 5)], []⟩

/-- A relational store holding only two small groups with ids 1 and 3. -/
def dbGroups : DB := ⟨[], [], [], [], [⟨1, "alpha"⟩, ⟨3, "beta"⟩]⟩

/-- An ephemeral store with a leftover timestamp but an empty checked-in set. -/
def redisGhostTime : RedisState := ⟨[], [(1, 5, "stale")]⟩

/-- An ephemeral store where event 1 has members 5 and 99; only person 5
has a Person row in `sampleDB`. -/
def redisWithGhost : RedisState := ⟨[(1, 5), (1, 99)], [(1, 5, "t1")]⟩

/-- Python round(0, 2) is 0. -/
lemma round2_zero : round2 0 = 0 := by simp [round2]

/-- Membership in the checked-in set determines membership in SMEMBERS. -/
lemma mem_checkedIn_of_mem_smembers (r : RedisState) (e p : Nat) (h : p ∈ r.smembers e) :
    (e, p) ∈ r.checkedIn := by
  unfold RedisState.smembers at h
  rw [List.mem_dedup] at h
  rcases List.mem_map.mp h with ⟨pr, hpr, hp2⟩
  rcases List.mem_filter.mp hpr with ⟨hmem, h1⟩
  have h1' : pr.1 = e := by simpa using h1
  have hpr' : pr = (e, p) := by
    cases pr
    simp_all
  rwa [hpr'] at hmem

/-- Membership in SMEMBERS follows from membership in the checked-in set. -/
lemma mem_smembers_of_mem_checkedIn (r : RedisState) (e p : Nat) (h : (e, p) ∈ r.checkedIn) :
    p ∈ r.smembers e := by
  unfold RedisState.smembers
  rw [List.mem_dedup]
  exact List.mem_map.mpr ⟨(e, p), List.mem_filter.mpr ⟨h, by simp⟩, rfl⟩

/-- SMEMBERS of a Redis SET returns distinct members. -/
lemma smembers_nodup (r : RedisState) (e : Nat) : (r.smembers e).Nodup :=
  List.nodup_dedup _

/-- SADD of an already-present member leaves the state unchanged. -/
lemma sadd_of_mem (r : RedisState) (e p : Nat) (h : (e, p) ∈ r.checkedIn) :
    r.sadd e p = r := by
  simp [RedisState.sadd, h]

/-- HGET after HSET of the same field yields the newly written value. -/
lemma hget_hset_self (r : RedisState) (e p : Nat) (v : String) :
    (r.hset e p v).hget e p = some v := by
  unfold RedisState.hget RedisState.hset
  rw [List.find?_cons_of_pos _ (by simp)]
  rfl

/-- HGET after HDEL of the same field yields nothing. -/
lemma hget_hdel (r : RedisState) (e p : Nat) : (r.hdel e p).hget e p = none := by
  unfold RedisState.hget RedisState.hdel
  have h : (r.checkInTimes.filter (fun t => !(t.1 == e && t.2.1 == p))).find?
      (fun t => t.1 == e && t.2.1 == p) = none := by
    rw [List.find?_eq_none]
    intro x hx
    rcases List.mem_filter.mp hx with ⟨_, hneg⟩
    simp only [Bool.not_eq_true', Bool.and_eq_false_iff, beq_eq_false_iff_ne, ne_eq] at hneg
    simp only [Bool.and_eq_true, beq_iff_eq, not_and]
    tauto
  rw [h]
  rfl

/-- HDEL does not disturb the checked-in sets. -/
lemma smembers_hdel (r : RedisState) (e p e2 : Nat) :
    (r.hdel e p).smembers e2 = r.smembers e2 := rfl

/-- SREM does not disturb the timestamp hashes. -/
lemma hget_srem (r : RedisState) (e p e2 p2 : Nat) :
    (r.srem e p).hget e2 p2 = r.hget e2 p2 := rfl

/-- HSET does not disturb the checked-in sets. -/
lemma smembers_hset (r : RedisState) (e p : Nat) (v : String) (e2 : Nat) :
    (r.hset e p v).smembers e2 = r.smembers e2 := rfl

/-- After SREM, the removed member is gone from SMEMBERS. -/
lemma not_mem_smembers_srem (r : RedisState) (e p : Nat) :
    p ∉ (r.srem e p).smembers e := by
  intro h
  have hc := mem_checkedIn_of_mem_smembers _ _ _ h
  unfold RedisState.srem at hc
  rcases List.mem_filter.mp hc with ⟨_, hne⟩
  simp at hne

/-- Every member of a list of naturals is bounded by its foldr-max. -/
lemma le_foldr_max (l : List Nat) (x : Nat) (hx : x ∈ l) : x ≤ l.foldr max 0 := by
  induction l with
  | nil => cases hx
  | cons a t ih =>
    rcases List.mem_cons.mp hx with h | h
    · subst h; exact le_max_left _ _
    · exact le_trans (ih h) (le_max_right _ _)

/-- The foldr-max of a non-empty list of naturals is attained by a member. -/
lemma foldr_max_mem (l : List Nat) (hl : l ≠ []) : l.foldr max 0 ∈ l := by
  induction l with
  | nil => exact absurd rfl hl
  | cons a t ih =>
    cases t with
    | nil => simp
    | cons b u =>
      rcases max_choice a ((b :: u).foldr max 0) with h | h
      · rw [List.foldr_cons, h]; exact List.mem_cons_self _ _
      · rw [List.foldr_cons, h]
        exact List.mem_cons_of_mem _ (ih (by simp))

/-- Filtering on a mapped attribute preserves the count of survivors. -/
lemma length_filter_comp (f : Person → Nat) (q : Nat → Bool) (l : List Person) :
    (l.filter (fun a => q (f a))).length = ((l.map f).filter q).length := by
  induction l with
  | nil => rfl
  | cons a t ih =>
    cases hq : q (f a) <;> simp [List.filter_cons, hq, ih]

/-- For duplicate-free lists, filtering each by membership in the other
yields the same number of survivors (both count the intersection). -/
lemma length_filter_mem_comm (A B : List Nat) (hA : A.Nodup) (hB : B.Nodup) :
    (A.filter (fun a => decide (a ∈ B))).length =
      (B.filter (fun b => decide (b ∈ A))).length := by
  have h1 : (A.filter (fun a => decide (a ∈ B))).Nodup := hA.filter _
  have h2 : (B.filter (fun b => decide (b ∈ A))).Nodup := hB.filter _
  rw [← List.toFinset_card_of_nodup h1, ← List.toFinset_card_of_nodup h2]
  congr 1
  ext x
  simp [List.mem_filter, and_comm]

/-- C1: for an event id with no matching Event row, the comprehensive
summary performs no calls to the document store or the ephemeral store —
but, because the handler's blanket exception clause catches its own
internally raised 404, the client receives status 500 rather than the
intended not-found error.  Evaluated here at the failing input: event id
99 against a store whose only event has id 1. -/
theorem C1_missing_event_500_no_store_calls :
    get_comprehensive_event_summary sampleDB [] sampleRedis false false 99 =
      (Except.error 500, ⟨false, false⟩) := rfl

/-- C2: for every event that exists, the summary's attendanceRate equals
totalCheckedIn divided by totalRegistered times 100 rounded to two
decimals, and equals 0 whenever totalRegistered is 0 — no division error
for any checked-in count. -/
theorem C2_attendance_rate_formula (db : DB) (mongoNotes : List EventNote) (r : RedisState)
    (redisFail mongoFail : Bool) (eid : Nat) (e : Event)
    (hfind : db.events.find? (fun ev => ev.id == eid) = some e) :
    (get_comprehensive_event_summary db mongoNotes r redisFail mongoFail eid).1 =
      Except.ok (buildSummary db mongoNotes r redisFail mongoFail eid e) ∧
    (buildSummary db mongoNotes r redisFail mongoFail eid e).summary.attendanceRate =
      (if (buildSummary db mongoNotes r redisFail mongoFail eid e).summary.totalRegistered = 0
       then 0
       else round2
         (((buildSummary db mongoNotes r redisFail mongoFail eid e).summary.totalCheckedIn : ℚ) /
          ((buildSummary db mongoNotes r redisFail mongoFail eid e).summary.totalRegistered : ℚ)
            * 100)) := by
  constructor
  · unfold get_comprehensive_event_summary
    rw [hfind]
  · show round2 (if (eventRegistrations db eid).isEmpty then 0
        else ((checkInData db r redisFail eid).checkedInCount : ℚ) /
          ((eventRegistrations db eid).length : ℚ) * 100) =
      if (eventRegistrations db eid).length = 0 then 0
      else round2 (((checkInData db r redisFail eid).checkedInCount : ℚ) /
        ((eventRegistrations db eid).length : ℚ) * 100)
    cases hS : (eventRegistrations db eid).isEmpty
    · have hne : (eventRegistrations db eid).length ≠ 0 := by
        intro h0
        rw [List.length_eq_zero] at h0
        rw [h0] at hS
        simp at hS
      simp [hS, hne]
    · have hnil : eventRegistrations db eid = [] := List.isEmpty_iff.mp hS
      simp [hS, hnil, round2_zero]

/-- Witness for C2, at an event with one live check-in and zero
registrations: the rate is defined (0) rather than a division error. -/
theorem C2_attendance_rate_formula_witness :
    sampleDB.events.find? (fun ev => ev.id == 1) = some sampleEvent ∧
    ((get_comprehensive_event_summary sampleDB [] sampleRedis false false 1).1 =
       Except.ok (buildSummary sampleDB [] sampleRedis false false 1 sampleEvent) ∧
     (buildSummary sampleDB [] sampleRedis false false 1 sampleEvent).summary.attendanceRate =
       (if (buildSummary sampleDB [] sampleRedis false false 1
             sampleEvent).summary.totalRegistered = 0
        then 0
        else round2
          (((buildSummary sampleDB [] sampleRedis false false 1
               sampleEvent).summary.totalCheckedIn : ℚ) /
           ((buildSummary sampleDB [] sampleRedis false false 1
               sampleEvent).summary.totalRegistered : ℚ) * 100))) :=
  ⟨by decide, C2_attendance_rate_formula sampleDB [] sampleRedis false false 1 sampleEvent
    (by decide)⟩

/-- C3: for every event that exists, a document-store failure does not
abort the aggregation: the call still succeeds and returns a notes section
with count 0 and an empty list. -/
theorem C3_mongo_failure_nonfatal (db : DB) (mongoNotes : List EventNote) (r : RedisState)
    (redisFail : Bool) (eid : Nat) (e : Event)
    (hfind : db.events.find? (fun ev => ev.id == eid) = some e) :
    (get_comprehensive_event_summary db mongoNotes r redisFail true eid).1 =
      Except.ok (buildSummary db mongoNotes r redisFail true eid e) ∧
    (buildSummary db mongoNotes r redisFail true eid e).notes.count = 0 ∧
    (buildSummary db mongoNotes r redisFail true eid e).notes.rows = [] := by
  refine ⟨?_, ?_, ?_⟩
  · unfold get_comprehensive_event_summary
    rw [hfind]
  · rfl
  · rfl

/-- Witness for C3 at the sample event with the document store failing. -/
theorem C3_mongo_failure_nonfatal_witness :
    sampleDB.events.find? (fun ev => ev.id == 1) = some sampleEvent ∧
    ((get_comprehensive_event_summary sampleDB [] sampleRedis false true 1).1 =
       Except.ok (buildSummary sampleDB [] sampleRedis false true 1 sampleEvent) ∧
     (buildSummary sampleDB [] sampleRedis false true 1 sampleEvent).notes.count = 0 ∧
     (buildSummary sampleDB [] sampleRedis false true 1 sampleEvent).notes.rows = []) :=
  ⟨by decide, C3_mongo_failure_nonfatal sampleDB [] sampleRedis false 1 sampleEvent (by decide)⟩

/-- C4 counterexample: a request naming both an attendee and a leader is
not rejected — it is accepted and the stored Registration row carries two
non-null role foreign keys, refuting the claimed mutual exclusivity. -/
theorem C4_two_roles_accepted :
    register_for_event dbEmpty 1 bodyTwoRoles =
      Except.ok (⟨[], [], [⟨1, 1, some 1, some 2, none, "555"⟩], [], []⟩, 1) := rfl

/-- C4 as amended: given a present emergency contact, the boundary
validator rejects a registration request (with 400, before any store
write) exactly when none of attendeeID, leaderID, volunteerID is truthy;
requests with more than one role set are therefore accepted. -/
theorem C4_validator_rejects_only_zero_roles (db : DB) (eid : Nat) (body : RegBody)
    (hec : truthyS body.emergencyContact = true) :
    (register_for_event db eid body = Except.error 400 ↔
      (truthyN body.attendeeID || truthyN body.leaderID ||
        truthyN body.volunteerID) = false) := by
  unfold register_for_event
  cases hr : (truthyN body.attendeeID || truthyN body.leaderID || truthyN body.volunteerID) <;>
    simp [hr, hec]

/-- Witness for the amended C4, at a request whose only role id is the
falsy volunteerID 0: it is rejected with 400. -/
theorem C4_validator_rejects_only_zero_roles_witness :
    truthyS bodyNoRoles.emergencyContact = true ∧
    (register_for_event sampleDB 1 bodyNoRoles = Except.error 400 ↔
      (truthyN bodyNoRoles.attendeeID || truthyN bodyNoRoles.leaderID ||
        truthyN bodyNoRoles.volunteerID) = false) :=
  ⟨by decide, C4_validator_rejects_only_zero_roles sampleDB 1 bodyNoRoles (by decide)⟩

/-- C5 counterexample: with an empty checked-in set for event 1, the live
check-ins operation does not succeed with an empty result — it fails with
a 404 error, refuting the claim as stated. -/
theorem C5_empty_set_is_error :
    get_live_checkins sampleDB redisEmpty 1 = Except.error 404 := rfl

/-- C5 as amended: for every event id whose checked-in set is empty, the
live check-ins operation fails with a 404 not-found error rather than
returning an empty success result. -/
theorem C5_empty_checkedin_gives_404 (db : DB) (r : RedisState) (eid : Nat)
    (h : r.smembers eid = []) :
    get_live_checkins db r eid = Except.error 404 := by
  simp [get_live_checkins, h]

/-- Witness for the amended C5, at an event (id 2) with no check-ins while
another event has some. -/
theorem C5_empty_checkedin_gives_404_witness :
    redisStale.smembers 2 = [] ∧
    get_live_checkins sampleDB redisStale 2 = Except.error 404 :=
  ⟨by decide, C5_empty_checkedin_gives_404 sampleDB redisStale 2 (by decide)⟩

/-- C6: every sequential SmallGroup creation with a non-empty name gets
id strictly greater than all existing ids, equal to some existing id plus
one when the table is non-empty, and equal to 1 when it is empty. -/
theorem C6_small_group_gets_max_plus_one (db : DB) (name : Option String)
    (h : truthyS name = true) :
    create_small_group db name =
      Except.ok
        ({ db with smallGroups := db.smallGroups ++ [⟨nextGroupId db, (name.getD "").trim⟩] },
         nextGroupId db) ∧
    (∀ g ∈ db.smallGroups, g.id < nextGroupId db) ∧
    (db.smallGroups = [] → nextGroupId db = 1) ∧
    (db.smallGroups ≠ [] → ∃ g ∈ db.smallGroups, nextGroupId db = g.id + 1) := by
  refine ⟨?_, ?_, ?_, ?_⟩
  · simp [create_small_group, h]
  · intro g hg
    have hmem : g.id ∈ db.smallGroups.map (fun g => g.id) := List.mem_map_of_mem _ hg
    exact Nat.lt_succ_of_le (le_foldr_max _ _ hmem)
  · intro he
    unfold nextGroupId
    rw [he]
    rfl
  · intro hne
    have hm : (db.smallGroups.map (fun g => g.id)) ≠ [] := by
      simpa using hne
    have hmem := foldr_max_mem _ hm
    rcases List.mem_map.mp hmem with ⟨g, hg, hid⟩
    exact ⟨g, hg, by unfold nextGroupId; rw [hid]⟩

/-- Witness for C6, on a table with ids 1 and 3: the new id is 4. -/
theorem C6_small_group_gets_max_plus_one_witness :
    truthyS (some " gamma ") = true ∧
    (create_small_group dbGroups (some " gamma ") =
       Except.ok
         ({ dbGroups with smallGroups :=
             dbGroups.smallGroups ++ [⟨nextGroupId dbGroups, ((some " gamma ").getD "").trim⟩] },
          nextGroupId dbGroups) ∧
     (∀ g ∈ dbGroups.smallGroups, g.id < nextGroupId dbGroups) ∧
     (dbGroups.smallGroups = [] → nextGroupId dbGroups = 1) ∧
     (dbGroups.smallGroups ≠ [] → ∃ g ∈ dbGroups.smallGroups, nextGroupId dbGroups = g.id + 1)) :=
  ⟨by decide, C6_small_group_gets_max_plus_one dbGroups (some " gamma ") (by decide)⟩

/-- C7: check-in followed by check-out removes the person from the
event's ephemeral checked-in set and timestamp map, while the
AttendanceRecord row written by the check-in remains in the relational
store, which the check-out never touches. -/
theorem C7_checkout_clears_ephemeral_keeps_history (db : DB) (r : RedisState)
    (eid pid : Nat) (now : String)
    (hperson : db.persons.any (fun p => p.id == pid) = true) :
    checkin_person db r eid pid now =
      Except.ok (checkinDB db eid pid, checkinRedis r eid pid now) ∧
    pid ∉ ((checkout_person (checkinRedis r eid pid now) eid pid).2.smembers eid) ∧
    (checkout_person (checkinRedis r eid pid now) eid pid).2.hget eid pid = none ∧
    (⟨pid, eid⟩ : AttendanceRecord) ∈ (checkinDB db eid pid).attendance ∧
    (checkinDB db eid pid).attendance = db.attendance ++ [⟨pid, eid⟩] := by
  refine ⟨?_, ?_, ?_, ?_, ?_⟩
  · simp [checkin_person, hperson]
  · show pid ∉ (((checkinRedis r eid pid now).srem eid pid).hdel eid pid).smembers eid
    rw [smembers_hdel]
    exact not_mem_smembers_srem _ _ _
  · show (((checkinRedis r eid pid now).srem eid pid).hdel eid pid).hget eid pid = none
    exact hget_hdel _ _ _
  · simp [checkinDB]
  · rfl

/-- Witness for C7 at person 5 and event 1 starting from an empty
ephemeral store. -/
theorem C7_checkout_clears_ephemeral_keeps_history_witness :
    sampleDB.persons.any (fun p => p.id == 5) = true ∧
    (checkin_person sampleDB redisEmpty 1 5 "t2" =
       Except.ok (checkinDB sampleDB 1 5, checkinRedis redisEmpty 1 5 "t2") ∧
     5 ∉ ((checkout_person (checkinRedis redisEmpty 1 5 "t2") 1 5).2.smembers 1) ∧
     (checkout_person (checkinRedis redisEmpty 1 5 "t2") 1 5).2.hget 1 5 = none ∧
     (⟨5, 1⟩ : AttendanceRecord) ∈ (checkinDB sampleDB 1 5).attendance ∧
     (checkinDB sampleDB 1 5).attendance = sampleDB.attendance ++ [⟨5, 1⟩]) :=
  ⟨by decide, C7_checkout_clears_ephemeral_keeps_history sampleDB redisEmpty 1 5 "t2" (by decide)⟩

/-- C8: checking in a person who is already checked in leaves the event's
checked-in set unchanged and overwrites the person's timestamp with the
new value. -/
theorem C8_checkin_idempotent_set_overwrites_time (db : DB) (r : RedisState)
    (eid pid : Nat) (now : String)
    (hperson : db.persons.any (fun p => p.id == pid) = true)
    (hin : pid ∈ r.smembers eid) :
    checkin_person db r eid pid now =
      Except.ok (checkinDB db eid pid, checkinRedis r eid pid now) ∧
    (checkinRedis r eid pid now).smembers eid = r.smembers eid ∧
    (checkinRedis r eid pid now).hget eid pid = some now := by
  have hmem := mem_checkedIn_of_mem_smembers r eid pid hin
  refine ⟨by simp [checkin_person, hperson], ?_, ?_⟩
  · unfold checkinRedis
    rw [sadd_of_mem r eid pid hmem, smembers_hset]
  · unfold checkinRedis
    rw [hget_hset_self]

/-- Witness for C8: person 5 is already checked in to event 1 with
timestamp "t1"; re-checking in at "t9" keeps the set and stores "t9". -/
theorem C8_checkin_idempotent_set_overwrites_time_witness :
    (sampleDB.persons.any (fun p => p.id == 5) = true ∧ 5 ∈ sampleRedis.smembers 1) ∧
    (checkin_person sampleDB sampleRedis 1 5 "t9" =
       Except.ok (checkinDB sampleDB 1 5, checkinRedis sampleRedis 1 5 "t9") ∧
     (checkinRedis sampleRedis 1 5 "t9").smembers 1 = sampleRedis.smembers 1 ∧
     (checkinRedis sampleRedis 1 5 "t9").hget 1 5 = some "t9") :=
  ⟨⟨by decide, by decide⟩,
   C8_checkin_idempotent_set_overwrites_time sampleDB sampleRedis 1 5 "t9"
     (by decide) (by decide)⟩

/-- C9: checking out a person who is not checked in reports not-found,
yet the timestamp entry for that person (if any) has been removed from
the check-in timestamp map by the time the error is raised. -/
theorem C9_checkout_notfound_still_clears_timestamp (r : RedisState) (eid pid : Nat)
    (hout : pid ∉ r.smembers eid) :
    (checkout_person r eid pid).1 = Except.error 404 ∧
    (checkout_person r eid pid).2.hget eid pid = none := by
  have hnc : (eid, pid) ∉ r.checkedIn := fun hc => hout (mem_smembers_of_mem_checkedIn _ _ _ hc)
  constructor
  · have h0 : r.sremCount eid pid = 0 := by simp [RedisState.sremCount, hnc]
    simp [checkout_person, h0]
  · show ((r.srem eid pid).hdel eid pid).hget eid pid = none
    exact hget_hdel _ _ _

/-- Witness for C9 at a state holding a stale timestamp for person 5 but
no set membership: the 404 path also clears the stale entry. -/
theorem C9_checkout_notfound_still_clears_timestamp_witness :
    (5 ∉ redisGhostTime.smembers 1) ∧
    ((checkout_person redisGhostTime 1 5).1 = Except.error 404 ∧
     (checkout_person redisGhostTime 1 5).2.hget 1 5 = none) :=
  ⟨by decide, C9_checkout_notfound_still_clears_timestamp redisGhostTime 1 5 (by decide)⟩

/-- C10: in every comprehensive summary (with the stores reachable and
distinct Person ids), liveCheckIns.count and totalCheckedIn equal the
number of ids in the event's checked-in set that also exist as Person
rows; checked-in ids without a Person row are silently excluded. -/
theorem C10_live_count_counts_existing_persons (db : DB) (mongoNotes : List EventNote)
    (r : RedisState) (eid : Nat) (e : Event)
    (hfind : db.events.find? (fun ev => ev.id == eid) = some e)
    (hids : (db.persons.map Person.id).Nodup) :
    (get_comprehensive_event_summary db mongoNotes r false false eid).1 =
      Except.ok (buildSummary db mongoNotes r false false eid e) ∧
    (buildSummary db mongoNotes r false false eid e).liveCheckIns.count =
      ((r.smembers eid).filter (fun sid => decide (∃ p ∈ db.persons, p.id = sid))).length ∧
    (buildSummary db mongoNotes r false false eid e).summary.totalCheckedIn =
      ((r.smembers eid).filter (fun sid => decide (∃ p ∈ db.persons, p.id = sid))).length := by
  have hcount : (checkInData db r false eid).checkedInCount =
      ((r.smembers eid).filter (fun sid => decide (∃ p ∈ db.persons, p.id = sid))).length := by
    cases hS : (r.smembers eid).isEmpty
    · have hred : (checkInData db r false eid).checkedInCount =
          (db.persons.filter (fun p => decide (p.id ∈ r.smembers eid))).length := by
        simp [checkInData, hS]
      rw [hred,
        length_filter_comp Person.id (fun i => decide (i ∈ r.smembers eid)) db.persons,
        length_filter_mem_comm _ _ hids (smembers_nodup r eid)]
      congr 1
      apply List.filter_congr
      intro a ha
      simp only [decide_eq_decide, List.mem_map]
    · have hnil : r.smembers eid = [] := List.isEmpty_iff.mp hS
      simp [checkInData, hS, hnil]
  exact ⟨by unfold get_comprehensive_event_summary; rw [hfind], hcount, hcount⟩

/-- Witness for C10: event 1 has checked-in ids 5 and 99 but only person
5 exists, so the count is 1. -/
theorem C10_live_count_counts_existing_persons_witness :
    (sampleDB.events.find? (fun ev => ev.id == 1) = some sampleEvent ∧
     (sampleDB.persons.map Person.id).Nodup) ∧
    ((get_comprehensive_event_summary sampleDB [] redisWithGhost false false 1).1 =
       Except.ok (buildSummary sampleDB [] redisWithGhost false false 1 sampleEvent) ∧
     (buildSummary sampleDB [] redisWithGhost false false 1 sampleEvent).liveCheckIns.count =
       ((redisWithGhost.smembers 1).filter
         (fun sid => decide (∃ p ∈ sampleDB.persons, p.id = sid))).length ∧
     (buildSummary sampleDB [] redisWithGhost false false 1 sampleEvent).summary.totalCheckedIn =
       ((redisWithGhost.smembers 1).filter
         (fun sid => decide (∃ p ∈ sampleDB.persons, p.id = sid))).length) :=
  ⟨⟨by decide, by decide⟩,
   C10_live_count_counts_existing_persons sampleDB [] redisWithGhost 1 sampleEvent
     (by decide) (by decide)⟩

end YouthGroup
